import Mathlib

/-!
Shallow embedding of the orchestration core: the canonical Message model,
the OpenAI-compatible streaming agent's accumulation and translation
(`providers/openai/agent.py`, `providers/openai/translation.py`), the SDK
agent's turn handling and error mapping (`providers/sdk/agent.py`,
`providers/sdk/translation.py`), the AgentRegistry
(`core/agent_registry.py`), the OrchestrationEngine (`server/engine.py`)
and the history route (`server/routes/agents.py`).  Python dicts are
embedded as insertion-ordered association lists with unique keys;
exceptions as `Except`/explicit error values.
-/

namespace Orchestration

/-- Lifecycle states for a managed agent (`core/models.py`, AgentState). -/
inductive AgentState
  | idle
  | processing
  | restarting
  | failed
  | terminated
deriving Repr, DecidableEq

/-- Classification of messages (`core/models.py`, MessageType). -/
inductive MessageType
  | chat
  | system
  | command
deriving Repr, DecidableEq

/-- A canonical message (`core/models.py`, Message).  The uuid `id` and
`timestamp` fields are generated nondeterministically at construction and
are not depended on by any property here, so they are omitted from the
embedding; `metadata` values are strings in every construction site we
model. -/
structure Message where
  sender : String
  recipients : List String
  content : String
  message_type : MessageType
  metadata : List (String × String)
deriving Repr, DecidableEq

/-- Spawn-request configuration (`core/models.py`, AgentConfig). -/
structure AgentConfig where
  name : String
  agent_type : String
  provider : String
  model : Option String := none
  instructions : Option String := none
  api_key : Option String := none
  auth_token : Option String := none
  base_url : Option String := none
  cwd : Option String := none
  setting_sources : Option (List String) := none
  allowed_tools : Option (List String) := none
  permission_mode : Option String := none
  credentials : List (String × String) := []
deriving Repr, DecidableEq

/-- Read model for agent enumeration (`core/models.py`, AgentInfo). -/
structure AgentInfo where
  name : String
  agent_type : String
  provider : String
  state : AgentState
deriving Repr, DecidableEq

/-- Result of a bulk shutdown (`core/models.py`, ShutdownReport). -/
structure ShutdownReport where
  succeeded : List String := []
  failed : List (String × String) := []
deriving Repr, DecidableEq

/-- Shared provider error taxonomy (`providers/errors.py`):
ProviderAuthError, ProviderAPIError (optional status code),
ProviderTimeoutError, and the ProviderError catch-all. -/
inductive ProviderErr
  | auth (msg : String)
  | api (msg : String) (status_code : Option Int)
  | timeout (msg : String)
  | generic (msg : String)
deriving Repr, DecidableEq

/-- The exceptions that cross the boundaries we model:
AgentNotFoundError / AgentAlreadyExistsError (`core/agent_registry.py`),
KeyError from the provider registry (`providers/registry.py`), the mapped
provider errors, and an arbitrary exception carrying its text. -/
inductive Exc
  | agentNotFound (name : String)
  | agentAlreadyExists (name : String)
  | keyError (name : String)
  | provider (e : ProviderErr)
  | other (msg : String)
deriving Repr, DecidableEq

/-! ### Python-dict embedding: insertion-ordered association lists -/

/-- Lookup `d[k]`, returning `none` when absent. -/
def dictLookup {κ α : Type} [DecidableEq κ] (d : List (κ × α)) (k : κ) : Option α :=
  match d with
  | [] => none
  | (k', v) :: rest => if k' = k then some v else dictLookup rest k

/-- Assignment `d[k] = v`: replace in place when the key exists, append
otherwise (Python dicts preserve insertion order). -/
def dictInsert {κ α : Type} [DecidableEq κ] (d : List (κ × α)) (k : κ) (v : α) :
    List (κ × α) :=
  match d with
  | [] => [(k, v)]
  | (k', v') :: rest =>
    if k' = k then (k', v) :: rest else (k', v') :: dictInsert rest k v

/-- Deletion `del d[k]`: removes the (unique) binding of `k`. -/
def dictRemove {κ α : Type} [DecidableEq κ] (d : List (κ × α)) (k : κ) :
    List (κ × α) :=
  match d with
  | [] => []
  | (k', v') :: rest =>
    if k' = k then rest else (k', v') :: dictRemove rest k

/-! ### OpenAI streaming accumulation (`providers/openai/agent.py`, `_call_api`) -/

/-- One function fragment inside a streamed tool-call delta
(name and arguments arrive as optional fragments). -/
structure DeltaFunction where
  name : Option String
  arguments : Option String
deriving Repr, DecidableEq

/-- One streamed tool-call delta: backend-assigned index, optional id
fragment, optional function fragment. -/
structure DeltaToolCall where
  index : Nat
  id : Option String
  function : Option DeltaFunction
deriving Repr, DecidableEq

/-- One choice delta of a streamed chunk. -/
structure Delta where
  content : Option String
  tool_calls : List DeltaToolCall
deriving Repr, DecidableEq

/-- One streamed chunk; `_call_api` skips chunks with empty `choices` and
reads `choices[0].delta` otherwise. -/
structure Chunk where
  choices : List Delta
deriving Repr, DecidableEq

/-- In-progress accumulated tool call: the entry
`{"id": "", "type": "function", "function": {"name": "", "arguments": ""}}`
of `tool_calls_dict` (the constant `"type"` field is omitted; no modelled
consumer reads it). -/
structure ToolCallAcc where
  id : String := ""
  name : String := ""
  arguments : String := ""
deriving Repr, DecidableEq

/-- Apply one tool-call delta to the accumulated entry at its index:
a truthy id overwrites, truthy function name/argument fragments are
concatenated (`_call_api` inner loop). -/
def applyDeltaToolCall (acc : ToolCallAcc) (tc : DeltaToolCall) : ToolCallAcc :=
  let acc := match tc.id with
    | some s => if s ≠ "" then { acc with id := s } else acc
    | none => acc
  match tc.function with
  | none => acc
  | some f =>
    let acc := match f.name with
      | some s => if s ≠ "" then { acc with name := acc.name ++ s } else acc
      | none => acc
    match f.arguments with
    | some s => if s ≠ "" then { acc with arguments := acc.arguments ++ s } else acc
    | none => acc

/-- Process one tool-call delta against `tool_calls_dict`: create the
default entry when the index is new, then apply the fragment updates. -/
def stepToolCall (d : List (Nat × ToolCallAcc)) (tc : DeltaToolCall) :
    List (Nat × ToolCallAcc) :=
  let d := if (dictLookup d tc.index).isSome then d
           else dictInsert d tc.index {}
  match dictLookup d tc.index with
  | some acc => dictInsert d tc.index (applyDeltaToolCall acc tc)
  | none => d

/-- Process one streamed chunk against the `(text_buffer, tool_calls_dict)`
state (`_call_api` outer loop). -/
def processChunk (st : String × List (Nat × ToolCallAcc)) (chunk : Chunk) :
    String × List (Nat × ToolCallAcc) :=
  match chunk.choices.head? with
  | none => st
  | some delta =>
    let text := match delta.content with
      | some s => if s ≠ "" then st.1 ++ s else st.1
      | none => st.1
    (text, delta.tool_calls.foldl stepToolCall st.2)

/-- Accumulate a whole stream from the initial empty state. -/
def callApiAccumulate (chunks : List Chunk) : String × List (Nat × ToolCallAcc) :=
  chunks.foldl processChunk ("", [])

/-- Flatten `tool_calls_dict` in ascending index order:
`[tool_calls_dict[k] for k in sorted(tool_calls_dict)]`. -/
def toolCallsList (d : List (Nat × ToolCallAcc)) : List ToolCallAcc :=
  (List.insertionSort (· ≤ ·) (d.map Prod.fst)).filterMap (fun k => dictLookup d k)

/-! ### OpenAI translation (`providers/openai/translation.py`) -/

/-- A string that Python's `strip()` reduces to `""`: every character is
whitespace (this also covers the empty string). -/
def isBlank (s : String) : Bool :=
  s.data.all Char.isWhitespace

/-- Chat Message for accumulated text, or `none` when the text is empty or
whitespace-only (`build_text_message`: `if not text or not text.strip()`;
`not text` means `text == ""`, `not text.strip()` means all-whitespace). -/
def build_text_message (text agent_name model : String) : Option Message :=
  if text == "" || isBlank text then none
  else some
    { sender := agent_name
      recipients := ["all"]
      content := text
      message_type := .chat
      metadata := [("provider", "openai"), ("model", model)] }

/-- System Message surfacing one accumulated tool call
(`build_tool_call_message`). -/
def build_tool_call_message (tc : ToolCallAcc) (agent_name : String) : Message :=
  { sender := agent_name
    recipients := ["all"]
    content := "Tool call: " ++ tc.name
    message_type := .system
    metadata :=
      [("provider", "openai"), ("type", "tool_call"), ("tool_call_id", tc.id),
       ("tool_name", tc.name), ("tool_arguments", tc.arguments)] }

/-- Full output list: the text message first when present, then one system
Message per tool call in list order (`build_messages`). -/
def build_messages (text_buffer : String) (tool_calls_list : List ToolCallAcc)
    (agent_name model : String) : List Message :=
  (match build_text_message text_buffer agent_name model with
   | some m => [m]
   | none => []) ++
  tool_calls_list.map (fun tc => build_tool_call_message tc agent_name)

/-- Messages produced by `_call_api` for a successfully consumed stream:
accumulate, flatten in index order, build. -/
def callApiMessages (chunks : List Chunk) (agent_name model : String) :
    List Message :=
  let st := callApiAccumulate chunks
  build_messages st.1 (toolCallsList st.2) agent_name model

/-! ### Agents, providers and the AgentRegistry (`core/agent_registry.py`,
`providers/base.py`, `providers/registry.py`) -/

/-- A live Agent object as seen by the registry and engine
(`providers/base.py` Protocol).  The two effectful methods are modelled by
their observable behaviour: `shutdownExc` is `some msg` when `shutdown()`
raises an exception with text `msg`, and `respond m` is the pair of the
messages `handle_message(m)` yields before the turn ends and the exception
it then raises, if any. -/
structure Agent where
  name : String
  agent_type : String
  state : AgentState
  shutdownExc : Option String
  respond : Message → List Message × Option Exc

/-- A registered provider (`providers/base.py` AgentProvider):
`create_agent` either returns an Agent or raises a provider error. -/
structure Provider where
  provider_type : String
  create_agent : AgentConfig → Except ProviderErr Agent

/-- The process-wide provider registry contents: provider-kind name to
Provider instance (`providers/registry.py`). -/
def ProviderEnv : Type := List (String × Provider)

/-- Lookup a provider by name; raises KeyError when unregistered
(`providers/registry.py`, `get_provider`). -/
def get_provider (env : ProviderEnv) (name : String) : Except Exc Provider :=
  match dictLookup env name with
  | some p => .ok p
  | none => .error (.keyError name)

/-- The agent registry's two maps (`AgentRegistry.__init__`):
`_agents` and `_configs`, both keyed by agent name. -/
structure AgentRegistry where
  agents : List (String × Agent)
  configs : List (String × AgentConfig)

/-- Well-formedness inherited from Python dicts: keys are unique. -/
def AgentRegistry.WF (r : AgentRegistry) : Prop :=
  (r.agents.map Prod.fst).Nodup ∧ (r.configs.map Prod.fst).Nodup

/-- Name-membership test (`AgentRegistry.has`). -/
def AgentRegistry.has (r : AgentRegistry) (name : String) : Bool :=
  (dictLookup r.agents name).isSome

/-- Lookup (`AgentRegistry.get`): AgentNotFoundError when absent. -/
def AgentRegistry.getAgent (r : AgentRegistry) (name : String) : Except Exc Agent :=
  match dictLookup r.agents name with
  | none => .error (.agentNotFound name)
  | some a => .ok a

/-- Spawn (`AgentRegistry.spawn`): duplicate-name check first, then
provider resolution (KeyError propagates), then `create_agent` (provider
errors propagate and nothing is registered), then both maps are updated
together. -/
def AgentRegistry.spawn (r : AgentRegistry) (env : ProviderEnv)
    (config : AgentConfig) : Except Exc (Agent × AgentRegistry) :=
  if (dictLookup r.agents config.name).isSome then
    .error (.agentAlreadyExists config.name)
  else
    match get_provider env config.provider with
    | .error e => .error e
    | .ok provider =>
      match provider.create_agent config with
      | .error e => .error (.provider e)
      | .ok agent =>
        .ok (agent,
          { agents := dictInsert r.agents config.name agent
            configs := dictInsert r.configs config.name config })

/-- Single shutdown (`AgentRegistry.shutdown_agent`): AgentNotFoundError
when absent (registry untouched); otherwise `agent.shutdown()` runs and the
`finally` block deletes both entries whether or not it raised; an exception
is re-raised after removal. -/
def AgentRegistry.shutdown_agent (r : AgentRegistry) (name : String) :
    Except Exc Unit × AgentRegistry :=
  match dictLookup r.agents name with
  | none => (.error (.agentNotFound name), r)
  | some agent =>
    let r' : AgentRegistry :=
      { agents := dictRemove r.agents name, configs := dictRemove r.configs name }
    match agent.shutdownExc with
    | none => (.ok (), r')
    | some msg => (.error (.other msg), r')

/-- One step of the `shutdown_all` loop body: shut down the named agent of
the (unchanged) starting registry, recording success or the failure text. -/
def shutdownAllStep (r : AgentRegistry) (rep : ShutdownReport) (name : String) :
    ShutdownReport :=
  match dictLookup r.agents name with
  | some agent =>
    match agent.shutdownExc with
    | none => { rep with succeeded := rep.succeeded ++ [name] }
    | some msg => { rep with failed := dictInsert rep.failed name msg }
  | none => rep

/-- Bulk shutdown (`AgentRegistry.shutdown_all`): iterate a snapshot of the
current names, collect per-agent outcomes, then clear both maps regardless
of failures. -/
def AgentRegistry.shutdown_all (r : AgentRegistry) :
    ShutdownReport × AgentRegistry :=
  let names := r.agents.map Prod.fst
  (names.foldl (shutdownAllStep r) {}, { agents := [], configs := [] })

/-! ### OrchestrationEngine (`server/engine.py`) -/

/-- Engine state: a private registry plus the per-name history map
(`OrchestrationEngine.__init__`). -/
structure OrchestrationEngine where
  registry : AgentRegistry
  histories : List (String × List Message)

/-- The human-origin Message `send_message` constructs for an inbound turn
(uuid id and timestamp omitted as in `Message`). -/
def engineHumanMessage (agent_name content : String) : Message :=
  { sender := "human"
    recipients := [agent_name]
    content := content
    message_type := .chat
    metadata := [] }

/-- Engine spawn (`OrchestrationEngine.spawn_agent`): `_load_provider` is a
module-import side effect subsumed by the given `env`; the registry spawn
result propagates, and on success the name's history entry is set to the
empty list. -/
def OrchestrationEngine.spawn_agent (eng : OrchestrationEngine)
    (env : ProviderEnv) (config : AgentConfig) :
    Except Exc (AgentInfo × OrchestrationEngine) :=
  match eng.registry.spawn env config with
  | .error e => .error e
  | .ok (agent, r') =>
    .ok ({ name := agent.name
           agent_type := agent.agent_type
           provider := config.provider
           state := agent.state },
         { registry := r', histories := dictInsert eng.histories config.name [] })

/-- Engine messaging (`OrchestrationEngine.send_message`): lookup (not-found
propagates), append the human Message to the history, drain the agent's
response sequence, and append responses only after a full successful drain;
an exception raised mid-drain propagates with only the human Message
recorded. -/
def OrchestrationEngine.send_message (eng : OrchestrationEngine)
    (agent_name content : String) :
    Except Exc (List Message) × OrchestrationEngine :=
  match dictLookup eng.registry.agents agent_name with
  | none => (.error (.agentNotFound agent_name), eng)
  | some agent =>
    match dictLookup eng.histories agent_name with
    | none => (.error (.keyError agent_name), eng)
    | some h =>
      let humanMsg := engineHumanMessage agent_name content
      let hist1 := dictInsert eng.histories agent_name (h ++ [humanMsg])
      match agent.respond humanMsg with
      | (_, some e) => (.error e, { eng with histories := hist1 })
      | (responses, none) =>
        (.ok responses,
         { eng with histories :=
             dictInsert hist1 agent_name (h ++ [humanMsg] ++ responses) })

/-- Engine history read (`OrchestrationEngine.get_history`): the stored
list, or the empty list for unknown names. -/
def OrchestrationEngine.get_history (eng : OrchestrationEngine)
    (agent_name : String) : List Message :=
  (dictLookup eng.histories agent_name).getD []

/-- Engine single shutdown (`OrchestrationEngine.shutdown_agent`): a thin
delegation to the registry; the history map is untouched. -/
def OrchestrationEngine.shutdown_agent (eng : OrchestrationEngine)
    (name : String) : Except Exc Unit × OrchestrationEngine :=
  let res := eng.registry.shutdown_agent name
  (res.1, { eng with registry := res.2 })

/-- Engine bulk shutdown (`OrchestrationEngine.shutdown_all`): a thin
delegation to the registry; the history map is untouched. -/
def OrchestrationEngine.shutdown_all (eng : OrchestrationEngine) :
    ShutdownReport × OrchestrationEngine :=
  let res := eng.registry.shutdown_all
  (res.1, { eng with registry := res.2 })

/-! ### The get-history route (`server/routes/agents.py`, `get_history`) -/

/-- Python slice `xs[start:]` for an Int `start`: a negative start counts
from the end, clamped at 0; a non-negative start is clamped at the length. -/
def pySliceFrom (xs : List Message) (start : Int) : List Message :=
  let n : Int := xs.length
  let i : Int := if start < 0 then max (n + start) 0 else min start n
  xs.drop i.toNat

/-- The daemon route: read the engine history and apply the optional tail
limit as `history[-limit:]`. -/
def route_get_history (eng : OrchestrationEngine) (name : String)
    (limit : Option Int) : List Message :=
  let history := eng.get_history name
  match limit with
  | none => history
  | some l => pySliceFrom history (-l)

/-! ### SDK translation (`providers/sdk/translation.py`) -/

/-- Content blocks of an SDK AssistantMessage: TextBlock, ToolUseBlock
(tool name plus input, the input dict rendered opaquely as a string), and
unrecognised block kinds such as ThinkingBlock. -/
inductive SDKContentBlock
  | text (text : String)
  | toolUse (name : String) (input : String)
  | unknownBlock (data : String)
deriving Repr, DecidableEq

/-- SDK message kinds consumed by `translate_sdk_message`: AssistantMessage
(list of blocks), a bare ToolResultBlock, ResultMessage (optional `result`
attribute, the `str(msg)` rendering, and `subtype`), and unrecognised
types. -/
inductive SDKMsg
  | assistant (content : List SDKContentBlock)
  | toolResult (content : String)
  | result (result : Option String) (strRepr : String) (subtype : String)
  | unknownMsg (data : String)
deriving Repr, DecidableEq

/-- Translate one assistant content block (`_translate_assistant` body):
text blocks become chat Messages, tool-use blocks become system Messages,
unknown blocks are silently skipped. -/
def translateAssistantBlock (block : SDKContentBlock) (sender : String) :
    List Message :=
  match block with
  | .text t =>
    [{ sender := sender, recipients := ["all"], content := t,
       message_type := .chat, metadata := [("sdk_type", "assistant_text")] }]
  | .toolUse name input =>
    [{ sender := sender, recipients := ["all"],
       content := "Using tool: " ++ name, message_type := .system,
       metadata := [("sdk_type", "tool_use"), ("tool_name", name),
                    ("tool_input", input)] }]
  | .unknownBlock _ => []

/-- Convert one SDK message into zero or more canonical Messages
(`translate_sdk_message`).  For ResultMessage the content is
`getattr(msg, "result", None) or str(msg)` — a missing or falsy (empty)
result attribute falls back to the string rendering. -/
def translate_sdk_message (sdk_msg : SDKMsg) (sender : String) : List Message :=
  match sdk_msg with
  | .assistant blocks =>
    blocks.foldl (fun acc b => acc ++ translateAssistantBlock b sender) []
  | .toolResult content =>
    [{ sender := sender, recipients := ["all"], content := content,
       message_type := .system, metadata := [("sdk_type", "tool_result")] }]
  | .result res strRepr subtype =>
    let content := match res with
      | some r => if r == "" then strRepr else r
      | none => strRepr
    if subtype == "success" then
      [{ sender := sender, recipients := ["all"], content := content,
         message_type := .chat,
         metadata := [("sdk_type", "result"), ("subtype", "success")] }]
    else
      [{ sender := sender, recipients := ["all"], content := content,
         message_type := .system,
         metadata := [("sdk_type", "result"), ("subtype", subtype)] }]
  | .unknownMsg _ => []

/-! ### Backend exceptions and their mapping -/

/-- Exceptions the claude-agent-sdk raises (`providers/sdk/agent.py`
imports): CLINotFoundError, ProcessError (with `exit_code`),
CLIConnectionError, CLIJSONDecodeError, and the ClaudeSDKError base. -/
inductive SDKExc
  | cliNotFound (msg : String)
  | processError (msg : String) (exit_code : Option Int)
  | cliConnection (msg : String)
  | cliJSONDecode (msg : String)
  | sdkError (msg : String)
deriving Repr, DecidableEq

/-- SDK error mapping: the `except` chains of `_handle_query_mode` and
`_handle_client_mode` (identical in both). -/
def mapSDKExc : SDKExc → Exc
  | .cliNotFound msg => .provider (.auth msg)
  | .processError msg code => .provider (.api msg code)
  | .cliConnection msg => .provider (.generic msg)
  | .cliJSONDecode msg => .provider (.generic msg)
  | .sdkError msg => .provider (.generic msg)

/-- Exceptions the openai client raises (`providers/openai/agent.py`
`except` chain, in matching order): AuthenticationError,
PermissionDeniedError, RateLimitError, other APIStatusError (with status
code), APITimeoutError, APIConnectionError. -/
inductive OpenAIExc
  | authentication (msg : String)
  | permissionDenied (msg : String)
  | rateLimit (msg : String)
  | apiStatus (msg : String) (status_code : Int)
  | apiTimeout (msg : String)
  | apiConnection (msg : String)
deriving Repr, DecidableEq

/-- OpenAI error mapping: the `except` chain of
`OpenAICompatibleAgent.handle_message`. -/
def mapOpenAIExc : OpenAIExc → Exc
  | .authentication msg => .provider (.auth msg)
  | .permissionDenied msg => .provider (.auth msg)
  | .rateLimit msg => .provider (.api msg (some 429))
  | .apiStatus msg code => .provider (.api msg (some code))
  | .apiTimeout msg => .provider (.timeout msg)
  | .apiConnection msg => .provider (.generic msg)

/-! ### Turn traces: the observable behaviour of one `handle_message` call -/

/-- Observable events of a turn, in order: state assignments to
`self._state` and yielded Messages. -/
inductive TurnEvent
  | stateSet (s : AgentState)
  | yielded (m : Message)
deriving Repr, DecidableEq

/-- One turn's trace: its events in order, and the exception that
propagates out of the generator afterwards, if any. -/
structure TurnResult where
  events : List TurnEvent
  raised : Option Exc
deriving Repr, DecidableEq

/-- A backend SDK stream for one turn: the SDK messages it yields, then the
exception it raises afterwards, if any. -/
def SDKStream : Type := List SDKMsg × Option SDKExc

/-- Trace of `SDKAgent._handle_query_mode`: state set to processing first,
then every SDK message is translated and each translation yielded; on clean
exhaustion state is set to idle; if the stream raises, state is set to
failed and the mapped error is re-raised. -/
def sdkHandleQueryMode (agent_name : String) (stream : SDKStream) : TurnResult :=
  let yields :=
    (stream.1.map (fun m => translate_sdk_message m agent_name)).flatten.map
      TurnEvent.yielded
  match stream.2 with
  | none =>
    { events := [.stateSet .processing] ++ yields ++ [.stateSet .idle]
      raised := none }
  | some e =>
    { events := [.stateSet .processing] ++ yields ++ [.stateSet .failed]
      raised := some (mapSDKExc e) }

/-- Trace of `SDKAgent._handle_client_mode`: lazy client creation and
`connect`/`query` happen inside the same `try`; an exception there is a
stream with no yielded messages.  The state/translation/mapping behaviour
is the same as query mode. -/
def sdkHandleClientMode (agent_name : String) (stream : SDKStream) : TurnResult :=
  let yields :=
    (stream.1.map (fun m => translate_sdk_message m agent_name)).flatten.map
      TurnEvent.yielded
  match stream.2 with
  | none =>
    { events := [.stateSet .processing] ++ yields ++ [.stateSet .idle]
      raised := none }
  | some e =>
    { events := [.stateSet .processing] ++ yields ++ [.stateSet .failed]
      raised := some (mapSDKExc e) }

/-- One entry of the OpenAI agent's internal turn history
(`self._history`): system prompt, user turn, or accumulated assistant
turn. -/
inductive ChatEntry
  | system (content : String)
  | user (content : String)
  | assistant (content : Option String) (tool_calls : List ToolCallAcc)
deriving Repr, DecidableEq

/-- The assistant history entry `_append_assistant_history` builds: with
tool calls the content is `text if text else None`; without, it is the
bare text. -/
def appendAssistantEntry (text : String) (tool_calls : List ToolCallAcc) :
    ChatEntry :=
  if tool_calls.isEmpty then .assistant (some text) []
  else .assistant (if text == "" then none else some text) tool_calls

/-- A turn trace of the OpenAI agent together with its updated internal
turn history. -/
structure OpenAITurn where
  events : List TurnEvent
  raised : Option Exc
  history : List ChatEntry
deriving Repr, DecidableEq

/-- Trace of `OpenAICompatibleAgent.handle_message`: state set to
processing, the user turn appended to the internal history, then
`_call_api` consumes the whole stream before anything is yielded.  On
success the assistant turn is recorded, each built Message is yielded, and
the `finally` block sets state to idle.  If the backend call raises —
before or during streaming, in either case before any yield — the mapped
error propagates and the same `finally` block still sets state to idle
(never failed). -/
def openaiHandleMessage (agent_name model : String) (history : List ChatEntry)
    (inbound : Message) (backend : Except OpenAIExc (List Chunk)) : OpenAITurn :=
  let history := history ++ [.user inbound.content]
  match backend with
  | .ok chunks =>
    let st := callApiAccumulate chunks
    let tcl := toolCallsList st.2
    let msgs := build_messages st.1 tcl agent_name model
    { events := [.stateSet .processing] ++ msgs.map .yielded ++ [.stateSet .idle]
      raised := none
      history := history ++ [appendAssistantEntry st.1 tcl] }
  | .error e =>
    { events := [.stateSet .processing, .stateSet .idle]
      raised := some (mapOpenAIExc e)
      history := history }

/-! ### Association-list lemmas -/

theorem dictLookup_of_mem {κ α : Type} [DecidableEq κ]
    {d : List (κ × α)} {k : κ} {v : α}
    (hnd : (d.map Prod.fst).Nodup) (hmem : (k, v) ∈ d) :
    dictLookup d k = some v := by
  induction d with
  | nil => cases hmem
  | cons p rest ih =>
    simp only [List.map_cons, List.nodup_cons] at hnd
    rcases List.mem_cons.mp hmem with h | h
    · rw [← h]
      simp [dictLookup]
    · have hne : p.1 ≠ k := by
        intro he
        exact hnd.1 (he ▸ List.mem_map_of_mem Prod.fst h)
      obtain ⟨k', v'⟩ := p
      simp only [dictLookup, if_neg hne]
      exact ih hnd.2 h

theorem mem_of_dictLookup {κ α : Type} [DecidableEq κ]
    {d : List (κ × α)} {k : κ} {v : α}
    (h : dictLookup d k = some v) : (k, v) ∈ d := by
  induction d with
  | nil => simp [dictLookup] at h
  | cons p rest ih =>
    obtain ⟨k', v'⟩ := p
    by_cases hk : k' = k
    · subst hk
      rw [dictLookup, if_pos rfl] at h
      injection h with h
      rw [← h]
      exact List.mem_cons_self _ _
    · rw [dictLookup, if_neg hk] at h
      exact List.mem_cons_of_mem _ (ih h)

theorem dictLookup_isSome_of_mem_keys {κ α : Type} [DecidableEq κ]
    {d : List (κ × α)} {k : κ}
    (h : k ∈ d.map Prod.fst) : (dictLookup d k).isSome := by
  induction d with
  | nil => simp at h
  | cons p rest ih =>
    obtain ⟨k₀, v₀⟩ := p
    by_cases hk : k₀ = k
    · simp [dictLookup, hk]
    · simp only [List.map_cons, List.mem_cons] at h
      rcases h with h | h
      · exact absurd h.symm hk
      · simp [dictLookup, hk, ih h]

theorem dictLookup_dictRemove_self {κ α : Type} [DecidableEq κ]
    {d : List (κ × α)} (hnd : (d.map Prod.fst).Nodup) (k : κ) :
    dictLookup (dictRemove d k) k = none := by
  induction d with
  | nil => rfl
  | cons p rest ih =>
    obtain ⟨k', v'⟩ := p
    simp only [List.map_cons, List.nodup_cons] at hnd
    by_cases hk : k' = k
    · subst hk
      simp only [dictRemove, if_pos rfl]
      cases hlook : dictLookup rest k' with
      | none => exact hlook
      | some v =>
        exact absurd (List.mem_map_of_mem Prod.fst (mem_of_dictLookup hlook)) hnd.1
    · simp only [dictRemove, if_neg hk, dictLookup, if_neg hk]
      exact ih hnd.2

theorem dictRemove_of_lookup_none {κ α : Type} [DecidableEq κ]
    {d : List (κ × α)} {k : κ} (h : dictLookup d k = none) :
    dictRemove d k = d := by
  induction d with
  | nil => rfl
  | cons p rest ih =>
    obtain ⟨k', v'⟩ := p
    by_cases hk : k' = k
    · rw [dictLookup, if_pos hk] at h
      cases h
    · rw [dictLookup, if_neg hk] at h
      rw [dictRemove, if_neg hk, ih h]

theorem dictInsert_of_lookup_none {κ α : Type} [DecidableEq κ]
    {d : List (κ × α)} {k : κ} (h : dictLookup d k = none) (v : α) :
    dictInsert d k v = d ++ [(k, v)] := by
  induction d with
  | nil => rfl
  | cons p rest ih =>
    obtain ⟨k', v'⟩ := p
    by_cases hk : k' = k
    · rw [dictLookup, if_pos hk] at h
      cases h
    · rw [dictLookup, if_neg hk] at h
      rw [dictInsert, if_neg hk, ih h]
      rfl

theorem dictLookup_append {κ α : Type} [DecidableEq κ]
    (d₁ d₂ : List (κ × α)) (k : κ) :
    dictLookup (d₁ ++ d₂) k =
      (dictLookup d₁ k).orElse (fun _ => dictLookup d₂ k) := by
  induction d₁ with
  | nil => simp [dictLookup]
  | cons p rest ih =>
    obtain ⟨k', v'⟩ := p
    by_cases hk : k' = k
    · simp [dictLookup, if_pos hk]
    · simp [dictLookup, if_neg hk, ih]

theorem dictLookup_dictInsert_self {κ α : Type} [DecidableEq κ]
    (d : List (κ × α)) (k : κ) (v : α) :
    dictLookup (dictInsert d k v) k = some v := by
  induction d with
  | nil => simp [dictInsert, dictLookup]
  | cons p rest ih =>
    obtain ⟨k', v'⟩ := p
    by_cases hk : k' = k
    · simp [dictInsert, if_pos hk, dictLookup, hk]
    · simp [dictInsert, if_neg hk, dictLookup, if_neg hk, ih]

theorem dictLookup_dictInsert_ne {κ α : Type} [DecidableEq κ]
    (d : List (κ × α)) {k k' : κ} (hne : k' ≠ k) (v : α) :
    dictLookup (dictInsert d k v) k' = dictLookup d k' := by
  have hkk : ¬ k = k' := fun h => hne h.symm
  induction d with
  | nil => simp [dictInsert, dictLookup, hkk]
  | cons p rest ih =>
    obtain ⟨k₀, v₀⟩ := p
    by_cases hk : k₀ = k
    · subst hk
      simp [dictInsert, dictLookup, hkk]
    · simp [dictInsert, if_neg hk, dictLookup, ih]

theorem keys_dictInsert {κ α : Type} [DecidableEq κ]
    (d : List (κ × α)) (k : κ) (v : α) :
    (dictInsert d k v).map Prod.fst =
      if (dictLookup d k).isSome then d.map Prod.fst
      else d.map Prod.fst ++ [k] := by
  induction d with
  | nil => simp [dictInsert, dictLookup]
  | cons p rest ih =>
    obtain ⟨k₀, v₀⟩ := p
    by_cases hk : k₀ = k
    · subst hk
      simp [dictInsert, dictLookup]
    · by_cases hl : (dictLookup rest k).isSome
      · simp [dictInsert, if_neg hk, dictLookup, hk, ih, hl]
      · simp [dictInsert, if_neg hk, dictLookup, hk, ih, hl]

theorem keys_dictInsert_nodup {κ α : Type} [DecidableEq κ]
    {d : List (κ × α)} (hnd : (d.map Prod.fst).Nodup) (k : κ) (v : α) :
    ((dictInsert d k v).map Prod.fst).Nodup := by
  rw [keys_dictInsert]
  by_cases hl : (dictLookup d k).isSome
  · simpa [hl] using hnd
  · have hk : k ∉ d.map Prod.fst := by
      intro hmem
      exact hl (dictLookup_isSome_of_mem_keys hmem)
    simp only [hl, if_false, Bool.false_eq_true]
    rw [List.nodup_append]
    exact ⟨hnd, List.nodup_singleton k, by simpa using hk⟩

/-! ### Concrete objects used by scenarios and witnesses -/

/-- A respond behaviour that yields nothing and raises nothing. -/
def silentRespond : Message → List Message × Option Exc := fun _ => ([], none)

/-- The C1 backend stream: a text fragment "Hello", then two tool-call
fragments at index 0 (name plus first argument fragment, then the second
argument fragment). -/
def c1Chunks : List Chunk :=
  [⟨[⟨some "Hello", []⟩]⟩,
   ⟨[⟨none, [⟨0, none, some ⟨some "search", some "\x7b\"q\":"⟩⟩]⟩]⟩,
   ⟨[⟨none, [⟨0, none, some ⟨none, some "\"hi\"\x7d"⟩⟩]⟩]⟩]

/-- The chat Message the C1 stream actually produces. -/
def c1ChatMessage : Message :=
  { sender := "bot", recipients := ["all"], content := "Hello",
    message_type := .chat,
    metadata := [("provider", "openai"), ("model", "m")] }

/-- The tool-call system Message the C1 stream actually produces: note the
content prefix is "Tool call: ", not "Using tool: ". -/
def c1ToolMessage : Message :=
  { sender := "bot", recipients := ["all"], content := "Tool call: search",
    message_type := .system,
    metadata := [("provider", "openai"), ("type", "tool_call"),
                 ("tool_call_id", ""), ("tool_name", "search"),
                 ("tool_arguments", "\x7b\"q\":\"hi\"\x7d")] }

/-- C1 (counterexample): the stream of the scenario does NOT yield a system
Message with content "Using tool: search" — the streaming-chat backend's
translation uses the prefix "Tool call: " (the "Using tool: " wording
belongs to the session-oriented backend's translation), so the output list
claimed by the specification is not the one produced. -/
theorem stream_translation_scenario_as_stated_false :
    (callApiMessages c1Chunks "bot" "m").map Message.content ≠
      ["Hello", "Using tool: search"] := by decide

/-- C1 (amended): the scenario stream accumulates text "Hello" and one
tool call at index 0 with name "search" and arguments the concatenation of
the two fragments, and yields exactly one chat Message "Hello" followed by
one system Message with content "Tool call: search" whose metadata carries
the tool name, accumulated arguments and call id. -/
theorem stream_translation_scenario_amended :
    callApiAccumulate c1Chunks =
      ("Hello", [(0, { id := "", name := "search",
                       arguments := "\x7b\"q\":\"hi\"\x7d" })]) ∧
    callApiMessages c1Chunks "bot" "m" = [c1ChatMessage, c1ToolMessage] := by
  constructor
  · decide
  · decide

/-- C10: at the daemon's get-history route the tail limit is applied as the
Python slice `history[-limit:]`; a limit of 0 therefore returns the whole
stored history, and a positive limit k returns the last min(k, length)
messages. -/
theorem route_history_limit_semantics :
    (∀ eng name, route_get_history eng name (some 0) = eng.get_history name) ∧
    (∀ eng name (k : Int), 0 < k →
      route_get_history eng name (some k) =
        (eng.get_history name).drop
          ((eng.get_history name).length - k.toNat) ∧
      (route_get_history eng name (some k)).length =
        min k.toNat (eng.get_history name).length) := by
  constructor
  · intro eng name
    simp [route_get_history, pySliceFrom]
  · intro eng name k hk
    have hneg : (-k : Int) < 0 := by omega
    have hdrop : route_get_history eng name (some k) =
        (eng.get_history name).drop
          ((eng.get_history name).length - k.toNat) := by
      simp only [route_get_history, pySliceFrom, if_pos hneg]
      congr 1
      omega
    refine ⟨hdrop, ?_⟩
    rw [hdrop, List.length_drop]
    omega

/-- Concrete engine for the C10 witness: one agent name with a three-entry
history. -/
def c10Eng : OrchestrationEngine :=
  { registry := { agents := [], configs := [] }
    histories := [("bot",
      [engineHumanMessage "bot" "one", engineHumanMessage "bot" "two",
       engineHumanMessage "bot" "three"])] }

/-- C10 witness: at the concrete engine, a limit of 2 returns the last two
messages. -/
theorem route_history_limit_semantics_witness :
    route_get_history c10Eng "bot" (some 2) =
      (c10Eng.get_history "bot").drop
        ((c10Eng.get_history "bot").length - (2 : Int).toNat) :=
  (route_history_limit_semantics.2 c10Eng "bot" 2 (by decide)).1

/-- Success test for an Except value. -/
def isOkE {ε α : Type} (r : Except ε α) : Bool :=
  match r with
  | .ok _ => true
  | .error _ => false

/-- Extract the engine from a successful spawn result, with a fallback for
the error case. -/
def engineOfSpawn (r : Except Exc (AgentInfo × OrchestrationEngine))
    (fallback : OrchestrationEngine) : OrchestrationEngine :=
  match r with
  | .ok p => p.2
  | .error _ => fallback

/-- C3 (amended): a name's history is append-only during the agent's life
— send_message only ever extends a history with a suffix, and neither
shutdown (single or bulk) nor a spawn of any name touches a live name's
history — and it is retained unchanged by shutdown_agent, `get_history(n)`
being identical immediately before and after the shutdown; but a
successful `spawn_agent` always re-initializes the spawned name's history
to the empty list, so a later spawn with the same name discards the stored
history. -/
theorem history_retention_amended :
    (∀ (eng : OrchestrationEngine) (n : String),
      ((eng.shutdown_agent n).2).get_history n = eng.get_history n) ∧
    (∀ (eng : OrchestrationEngine) (n : String),
      ((eng.shutdown_all).2).get_history n = eng.get_history n) ∧
    (∀ (eng : OrchestrationEngine) (t content n : String), ∃ s,
      ((eng.send_message t content).2).get_history n =
        eng.get_history n ++ s) ∧
    (∀ (eng : OrchestrationEngine) (env : ProviderEnv) (config : AgentConfig)
       (info : AgentInfo) (eng' : OrchestrationEngine) (n : String),
      eng.registry.has n = true →
      eng.spawn_agent env config = .ok (info, eng') →
      eng'.get_history n = eng.get_history n) ∧
    (∀ (eng : OrchestrationEngine) (env : ProviderEnv) (config : AgentConfig)
       (info : AgentInfo) (eng' : OrchestrationEngine),
      eng.spawn_agent env config = .ok (info, eng') →
      eng'.get_history config.name = []) := by
  refine ⟨fun eng n => rfl, fun eng n => rfl, ?_, ?_, ?_⟩
  · intro eng t content n
    cases ha : dictLookup eng.registry.agents t with
    | none =>
      refine ⟨[], ?_⟩
      simp only [OrchestrationEngine.send_message, ha, List.append_nil]
    | some agent =>
      cases hh : dictLookup eng.histories t with
      | none =>
        refine ⟨[], ?_⟩
        simp only [OrchestrationEngine.send_message, ha, hh, List.append_nil]
      | some h =>
        cases hr : agent.respond (engineHumanMessage t content) with
        | mk ys exc =>
          cases exc with
          | some e =>
            by_cases hn : n = t
            · subst hn
              refine ⟨[engineHumanMessage n content], ?_⟩
              simp only [OrchestrationEngine.send_message, ha, hh, hr,
                OrchestrationEngine.get_history, dictLookup_dictInsert_self, hh]
              rfl
            · refine ⟨[], ?_⟩
              simp only [OrchestrationEngine.send_message, ha, hh, hr,
                OrchestrationEngine.get_history, List.append_nil,
                dictLookup_dictInsert_ne _ hn]
          | none =>
            by_cases hn : n = t
            · subst hn
              refine ⟨[engineHumanMessage n content] ++ ys, ?_⟩
              simp only [OrchestrationEngine.send_message, ha, hh, hr,
                OrchestrationEngine.get_history, dictLookup_dictInsert_self, hh]
              simp [List.append_assoc]
            · refine ⟨[], ?_⟩
              simp only [OrchestrationEngine.send_message, ha, hh, hr,
                OrchestrationEngine.get_history, List.append_nil,
                dictLookup_dictInsert_ne _ hn]
  · intro eng env config info eng' n hlive hok
    unfold OrchestrationEngine.spawn_agent at hok
    cases hsp : eng.registry.spawn env config with
    | error e => rw [hsp] at hok; cases hok
    | ok res =>
      obtain ⟨agent, r'⟩ := res
      rw [hsp] at hok
      injection hok with h
      injection h with h1 h2
      have hnone : (dictLookup eng.registry.agents config.name).isSome = false := by
        cases hl : (dictLookup eng.registry.agents config.name).isSome with
        | false => rfl
        | true =>
          unfold AgentRegistry.spawn at hsp
          rw [if_pos hl] at hsp
          cases hsp
      have hne : n ≠ config.name := by
        intro he
        have hlive' : (dictLookup eng.registry.agents n).isSome = true := hlive
        rw [← he, hlive'] at hnone
        cases hnone
      rw [← h2]
      simp only [OrchestrationEngine.get_history,
        dictLookup_dictInsert_ne _ hne]
  · intro eng env config info eng' hok
    unfold OrchestrationEngine.spawn_agent at hok
    cases hsp : eng.registry.spawn env config with
    | error e => rw [hsp] at hok; cases hok
    | ok res =>
      obtain ⟨agent, r'⟩ := res
      rw [hsp] at hok
      injection hok with h
      injection h with h1 h2
      rw [← h2]
      simp [OrchestrationEngine.get_history, dictLookup_dictInsert_self]


/-- The agent backing the C3 counterexample scenario. -/
def c3Agent : Agent :=
  { name := "bot", agent_type := "api", state := .idle,
    shutdownExc := none, respond := silentRespond }

/-- Spawn configuration used twice in the C3 counterexample. -/
def c3Cfg : AgentConfig :=
  { name := "bot", agent_type := "api", provider := "mock" }

/-- Provider environment for the C3 counterexample. -/
def c3Env : ProviderEnv :=
  [("mock", { provider_type := "mock", create_agent := fun _ => .ok c3Agent })]

/-- C3 counterexample start state: agent "bot" live with one stored
history message. -/
def c3Eng : OrchestrationEngine :=
  { registry := { agents := [("bot", c3Agent)], configs := [("bot", c3Cfg)] }
    histories := [("bot", [engineHumanMessage "bot" "hi"])] }

/-- The engine after shutting "bot" down. -/
def c3EngDown : OrchestrationEngine := (c3Eng.shutdown_agent "bot").2

/-- The engine after re-spawning "bot" with the same name. -/
def c3EngRespawn : OrchestrationEngine :=
  engineOfSpawn (c3EngDown.spawn_agent c3Env c3Cfg) c3EngDown

/-- A spawn configuration for a different name, used while "bot" is live. -/
def c3CfgOther : AgentConfig :=
  { name := "other", agent_type := "api", provider := "mock" }

/-- The engine after spawning "other" while "bot" is still live. -/
def c3EngOther : OrchestrationEngine :=
  engineOfSpawn (c3Eng.spawn_agent c3Env c3CfgOther) c3Eng

/-- C3 witness: the shutdown-retention half applied at a concrete engine
with a non-empty history; the live-name half applied at a concrete spawn
of "other" while "bot" is live (discharging the liveness and success
hypotheses by computation); and the reset half applied at the concrete
re-spawn of "bot" (discharging the success hypothesis by computation). -/
theorem history_retention_witness :
    ((c10Eng.shutdown_agent "bot").2).get_history "bot" =
      c10Eng.get_history "bot" ∧
    c3EngOther.get_history "bot" = c3Eng.get_history "bot" ∧
    c3EngRespawn.get_history "bot" = [] :=
  ⟨history_retention_amended.1 c10Eng "bot",
   history_retention_amended.2.2.2.1 c3Eng c3Env c3CfgOther
     { name := "bot", agent_type := "api", provider := "mock", state := .idle }
     c3EngOther "bot" rfl rfl,
   history_retention_amended.2.2.2.2 c3EngDown c3Env c3Cfg
     { name := "bot", agent_type := "api", provider := "mock", state := .idle }
     c3EngRespawn rfl⟩

/-- C3 (counterexample): "bot"'s non-empty history survives the shutdown,
the re-spawn with the same name succeeds, and afterwards `get_history`
returns the empty list — an engine operation other than daemon exit
discarded a stored history, contradicting the claim as stated. -/
theorem history_respawn_as_stated_false :
    c3EngDown.get_history "bot" = [engineHumanMessage "bot" "hi"] ∧
    isOkE (c3EngDown.spawn_agent c3Env c3Cfg) = true ∧
    c3EngRespawn.get_history "bot" = [] ∧
    ([] : List Message) ≠ [engineHumanMessage "bot" "hi"] :=
  ⟨rfl, rfl, rfl, by decide⟩

/-- C9: when the agent's response sequence raises partway through
send_message, the mapped error propagates, the inbound human Message
(appended before draining) is in the history, and none of the partial
responses are — the history grows by exactly the one human entry. -/
theorem send_message_failure_history
    (eng : OrchestrationEngine) (n content : String) (agent : Agent)
    (h ys : List Message) (e : Exc)
    (ha : dictLookup eng.registry.agents n = some agent)
    (hh : dictLookup eng.histories n = some h)
    (hr : agent.respond (engineHumanMessage n content) = (ys, some e)) :
    (eng.send_message n content).1 = .error e ∧
    dictLookup ((eng.send_message n content).2).histories n =
      some (h ++ [engineHumanMessage n content]) := by
  unfold OrchestrationEngine.send_message
  simp only [ha, hh, hr]
  exact ⟨trivial, dictLookup_dictInsert_self _ _ _⟩

/-- An agent whose response sequence yields one message and then raises a
generic provider error. -/
def c9Agent : Agent :=
  { name := "bot", agent_type := "api", state := .idle, shutdownExc := none,
    respond := fun m =>
      ([{ sender := "bot", recipients := ["all"], content := m.content,
          message_type := .chat, metadata := [] }],
       some (.provider (.generic "connection dropped"))) }

/-- Concrete engine for the C9 witness: "bot" is live with an empty
history. -/
def c9Eng : OrchestrationEngine :=
  { registry := { agents := [("bot", c9Agent)], configs := [("bot", c3Cfg)] }
    histories := [("bot", [])] }

/-- C9 witness: at the concrete engine the failed send propagates the
error and records exactly the human message. -/
theorem send_message_failure_history_witness :
    (c9Eng.send_message "bot" "hi").1 =
      .error (.provider (.generic "connection dropped")) ∧
    dictLookup ((c9Eng.send_message "bot" "hi").2).histories "bot" =
      some ([] ++ [engineHumanMessage "bot" "hi"]) :=
  send_message_failure_history c9Eng "bot" "hi" c9Agent [] _ _ rfl rfl rfl

/-- C4: shutdown_one removes the agent and its config from the registry
even when the agent's shutdown raises, and the exception still propagates;
an absent name yields a not-found error with the registry unchanged. -/
theorem shutdown_one_always_removes (r : AgentRegistry) (n : String) :
    (∀ agent msg, r.WF → dictLookup r.agents n = some agent →
      agent.shutdownExc = some msg →
      (r.shutdown_agent n).1 = .error (.other msg) ∧
      ((r.shutdown_agent n).2).has n = false ∧
      dictLookup ((r.shutdown_agent n).2).configs n = none) ∧
    (dictLookup r.agents n = none →
      r.shutdown_agent n = (.error (.agentNotFound n), r)) := by
  constructor
  · intro agent msg hwf ha hexc
    unfold AgentRegistry.shutdown_agent
    simp only [ha, hexc]
    refine ⟨trivial, ?_, ?_⟩
    · simp [AgentRegistry.has, dictLookup_dictRemove_self hwf.1]
    · exact dictLookup_dictRemove_self hwf.2 n
  · intro ha
    unfold AgentRegistry.shutdown_agent
    simp only [ha]

/-- Registered agent "a" whose shutdown succeeds. -/
def regAgentA : Agent :=
  { name := "a", agent_type := "api", state := .idle,
    shutdownExc := none, respond := silentRespond }

/-- Registered agent "b" whose shutdown raises "boom". -/
def regAgentB : Agent :=
  { name := "b", agent_type := "api", state := .idle,
    shutdownExc := some "boom", respond := silentRespond }

/-- Config for agent "a". -/
def regCfgA : AgentConfig :=
  { name := "a", agent_type := "api", provider := "mock" }

/-- Config for agent "b". -/
def regCfgB : AgentConfig :=
  { name := "b", agent_type := "api", provider := "mock" }

/-- Concrete registry holding agents "a" (clean shutdown) and "b"
(failing shutdown). -/
def regAB : AgentRegistry :=
  { agents := [("a", regAgentA), ("b", regAgentB)]
    configs := [("a", regCfgA), ("b", regCfgB)] }

/-- C4 witness: shutting down "b", whose shutdown raises, removes it and
its config and re-raises the error. -/
theorem shutdown_one_always_removes_witness :
    (regAB.shutdown_agent "b").1 = .error (.other "boom") ∧
    ((regAB.shutdown_agent "b").2).has "b" = false ∧
    dictLookup ((regAB.shutdown_agent "b").2).configs "b" = none :=
  (shutdown_one_always_removes regAB "b").1 regAgentB "boom"
    ⟨by decide, by decide⟩ rfl rfl

/-- C5: spawning a name already present fails with the duplicate-name
error before any mutation (so the first agent's entries are untouched) and
the registry holds exactly one agent under that name; moreover a
successful spawn preserves key uniqueness, so the registry never holds two
agents under one name. -/
theorem spawn_duplicate_name_uniqueness :
    (∀ (env : ProviderEnv) (r : AgentRegistry) (config : AgentConfig),
      r.WF → r.has config.name = true →
      r.spawn env config = .error (.agentAlreadyExists config.name) ∧
      (r.agents.map Prod.fst).count config.name = 1) ∧
    (∀ (env : ProviderEnv) (r : AgentRegistry) (config : AgentConfig)
       (agent : Agent) (r' : AgentRegistry),
      r.WF → r.spawn env config = .ok (agent, r') → r'.WF) := by
  constructor
  · intro env r config hwf hhas
    have hsome : (dictLookup r.agents config.name).isSome = true := hhas
    constructor
    · unfold AgentRegistry.spawn
      simp [hsome]
    · obtain ⟨a, ha⟩ := Option.isSome_iff_exists.mp hsome
      exact List.count_eq_one_of_mem hwf.1
        (List.mem_map_of_mem Prod.fst (mem_of_dictLookup ha))
  · intro env r config agent r' hwf hok
    unfold AgentRegistry.spawn at hok
    cases hl : (dictLookup r.agents config.name).isSome with
    | true => simp [hl] at hok
    | false =>
      simp only [hl, Bool.false_eq_true, if_false] at hok
      cases hp : get_provider env config.provider with
      | error e => simp only [hp] at hok; cases hok
      | ok p =>
        simp only [hp] at hok
        cases hc : p.create_agent config with
        | error e => simp only [hc] at hok; cases hok
        | ok a =>
          simp only [hc, Except.ok.injEq, Prod.mk.injEq] at hok
          rw [← hok.2]
          exact ⟨keys_dictInsert_nodup hwf.1 _ _, keys_dictInsert_nodup hwf.2 _ _⟩

/-- Provider environment whose "mock" provider always succeeds, returning
agent "a". -/
def regEnvOk : ProviderEnv :=
  [("mock", { provider_type := "mock", create_agent := fun _ => .ok regAgentA })]

/-- C5 witness: a second spawn of the taken name "a" fails with the
duplicate-name error and the registry still counts exactly one "a". -/
theorem spawn_duplicate_name_uniqueness_witness :
    regAB.spawn regEnvOk regCfgA = .error (.agentAlreadyExists "a") ∧
    (regAB.agents.map Prod.fst).count "a" = 1 :=
  spawn_duplicate_name_uniqueness.1 regEnvOk regAB regCfgA
    ⟨by decide, by decide⟩ rfl

/-- C6: when the resolved provider's create_agent fails during a spawn of
an unregistered name, the provider error propagates and nothing is
registered; on success the Agent and its AgentConfig are inserted into the
two maps together. -/
theorem spawn_provider_failure_atomic :
    (∀ (env : ProviderEnv) (r : AgentRegistry) (config : AgentConfig)
       (p : Provider) (e : ProviderErr),
      dictLookup r.agents config.name = none →
      dictLookup env config.provider = some p →
      p.create_agent config = .error e →
      r.spawn env config = .error (.provider e) ∧
      r.has config.name = false) ∧
    (∀ (env : ProviderEnv) (r : AgentRegistry) (config : AgentConfig)
       (p : Provider) (agent : Agent),
      dictLookup r.agents config.name = none →
      dictLookup env config.provider = some p →
      p.create_agent config = .ok agent →
      r.spawn env config = .ok (agent,
        { agents := dictInsert r.agents config.name agent
          configs := dictInsert r.configs config.name config })) := by
  constructor
  · intro env r config p e hn hp hc
    constructor
    · unfold AgentRegistry.spawn get_provider
      simp [hn, hp, hc]
    · simp [AgentRegistry.has, hn]
  · intro env r config p agent hn hp hc
    unfold AgentRegistry.spawn get_provider
    simp [hn, hp, hc]

/-- Provider environment whose "mock" provider always fails with an
authentication error. -/
def regEnvFail : ProviderEnv :=
  [("mock", { provider_type := "mock",
              create_agent := fun _ => .error (.auth "no key") })]

/-- The empty registry. -/
def regEmpty : AgentRegistry := { agents := [], configs := [] }

/-- C6 witness: a failing create_agent on the empty registry propagates
the authentication error and registers nothing. -/
theorem spawn_provider_failure_atomic_witness :
    regEmpty.spawn regEnvFail regCfgA = .error (.provider (.auth "no key")) ∧
    regEmpty.has "a" = false :=
  spawn_provider_failure_atomic.1 regEnvFail regEmpty regCfgA _ _ rfl rfl rfl

/-- C2 (amended): every backend agent sets its state to processing before
producing any element and to idle after a successful exhaustion; on a
backend error the session-oriented (SDK) agent sets state to failed before
the mapped error propagates, but the streaming-chat (OpenAI) agent's
`finally` block sets state back to idle even when the mapped error
propagates — its final state on failure is idle, not failed. -/
theorem turn_state_transitions_amended :
    (∀ (n : String) (s : SDKStream),
      (sdkHandleQueryMode n s).events.head? = some (.stateSet .processing) ∧
      (sdkHandleClientMode n s).events.head? = some (.stateSet .processing) ∧
      (s.2 = none →
        (sdkHandleQueryMode n s).events.getLast? = some (.stateSet .idle) ∧
        (sdkHandleClientMode n s).events.getLast? = some (.stateSet .idle) ∧
        (sdkHandleQueryMode n s).raised = none ∧
        (sdkHandleClientMode n s).raised = none) ∧
      (∀ e, s.2 = some e →
        (sdkHandleQueryMode n s).events.getLast? = some (.stateSet .failed) ∧
        (sdkHandleClientMode n s).events.getLast? = some (.stateSet .failed) ∧
        (sdkHandleQueryMode n s).raised = some (mapSDKExc e) ∧
        (sdkHandleClientMode n s).raised = some (mapSDKExc e))) ∧
    (∀ (an model : String) (hist : List ChatEntry) (inbound : Message)
       (backend : Except OpenAIExc (List Chunk)),
      (openaiHandleMessage an model hist inbound backend).events.head? =
        some (.stateSet .processing) ∧
      (openaiHandleMessage an model hist inbound backend).events.getLast? =
        some (.stateSet .idle) ∧
      (∀ chunks, backend = .ok chunks →
        (openaiHandleMessage an model hist inbound backend).raised = none) ∧
      (∀ e, backend = .error e →
        (openaiHandleMessage an model hist inbound backend).raised =
          some (mapOpenAIExc e))) := by
  constructor
  · intro n s
    obtain ⟨msgs, exc⟩ := s
    cases exc with
    | none =>
      refine ⟨rfl, rfl, ?_, ?_⟩
      · intro h
        exact ⟨List.getLast?_concat _, List.getLast?_concat _, rfl, rfl⟩
      · intro e he
        cases he
    | some e0 =>
      refine ⟨rfl, rfl, ?_, ?_⟩
      · intro h
        cases h
      · intro e he
        cases he
        exact ⟨List.getLast?_concat _, List.getLast?_concat _, rfl, rfl⟩
  · intro an model hist inbound backend
    cases backend with
    | ok chunks =>
      refine ⟨rfl, List.getLast?_concat _, ?_, ?_⟩
      · intro c hc
        rfl
      · intro e he
        cases he
    | error e0 =>
      refine ⟨rfl, rfl, ?_, ?_⟩
      · intro c hc
        cases hc
      · intro e he
        cases he
        rfl

/-- The C2 counterexample turn: the OpenAI-compatible agent hits an
authentication failure. -/
def c2Turn : OpenAITurn :=
  openaiHandleMessage "bot" "m" [] (engineHumanMessage "bot" "hi")
    (.error (.authentication "bad key"))

/-- C2 (counterexample): when the streaming-chat backend raises an
authentication error, the mapped error propagates but the last state
assignment of the turn is idle — not failed — contradicting the claim as
stated. -/
theorem turn_state_failed_as_stated_false :
    c2Turn.raised = some (.provider (.auth "bad key")) ∧
    c2Turn.events.getLast? = some (.stateSet .idle) ∧
    c2Turn.events.getLast? ≠ some (.stateSet .failed) := by decide

/-- C2 witness: at a concrete failing SDK stream, the final state
assignment of the query-mode turn is failed. -/
theorem turn_state_transitions_witness :
    (sdkHandleQueryMode "bot" ([], some (.processError "exit" (some 3)))).events.getLast? =
      some (.stateSet .failed) :=
  ((turn_state_transitions_amended.1 "bot"
    ([], some (.processError "exit" (some 3)))).2.2.2
    (.processError "exit" (some 3)) rfl).1

/-- C8: the session-oriented agent maps every backend error into the
shared taxonomy before re-raising — a missing backend binary
(CLINotFoundError) to the authentication error, a non-zero process exit
(ProcessError) to the API error carrying the exit code, and
transport/decode failures (CLIConnectionError, CLIJSONDecodeError,
ClaudeSDKError) to the generic provider error — in both query and client
modes; and the engine re-raises such errors unswallowed from
send_message. -/
theorem backend_error_taxonomy_mapping :
    (∀ (n : String) (msgs : List SDKMsg) (m : String),
      (sdkHandleQueryMode n (msgs, some (.cliNotFound m))).raised =
        some (.provider (.auth m)) ∧
      (sdkHandleClientMode n (msgs, some (.cliNotFound m))).raised =
        some (.provider (.auth m))) ∧
    (∀ (n : String) (msgs : List SDKMsg) (m : String) (code : Option Int),
      (sdkHandleQueryMode n (msgs, some (.processError m code))).raised =
        some (.provider (.api m code)) ∧
      (sdkHandleClientMode n (msgs, some (.processError m code))).raised =
        some (.provider (.api m code))) ∧
    (∀ (n : String) (msgs : List SDKMsg) (m : String),
      (sdkHandleQueryMode n (msgs, some (.cliConnection m))).raised =
        some (.provider (.generic m)) ∧
      (sdkHandleQueryMode n (msgs, some (.cliJSONDecode m))).raised =
        some (.provider (.generic m)) ∧
      (sdkHandleQueryMode n (msgs, some (.sdkError m))).raised =
        some (.provider (.generic m)) ∧
      (sdkHandleClientMode n (msgs, some (.cliConnection m))).raised =
        some (.provider (.generic m)) ∧
      (sdkHandleClientMode n (msgs, some (.cliJSONDecode m))).raised =
        some (.provider (.generic m)) ∧
      (sdkHandleClientMode n (msgs, some (.sdkError m))).raised =
        some (.provider (.generic m))) ∧
    (∀ (eng : OrchestrationEngine) (n content : String) (agent : Agent)
       (h ys : List Message) (e : Exc),
      dictLookup eng.registry.agents n = some agent →
      dictLookup eng.histories n = some h →
      agent.respond (engineHumanMessage n content) = (ys, some e) →
      (eng.send_message n content).1 = .error e) := by
  refine ⟨fun n msgs m => ⟨rfl, rfl⟩,
          fun n msgs m code => ⟨rfl, rfl⟩,
          fun n msgs m => ⟨rfl, rfl, rfl, rfl, rfl, rfl⟩,
          fun eng n content agent h ys e ha hh hr => ?_⟩
  unfold OrchestrationEngine.send_message
  simp only [ha, hh, hr]

/-- C8 witness: at a concrete engine whose agent raises a mapped API
error mid-turn, send_message propagates that error; and a concrete
ProcessError with exit code 3 maps to the API error with status 3. -/
theorem backend_error_taxonomy_mapping_witness :
    (sdkHandleQueryMode "bot" ([], some (.processError "boom" (some 3)))).raised =
      some (.provider (.api "boom" (some 3))) ∧
    (c9Eng.send_message "bot" "hi").1 =
      .error (.provider (.generic "connection dropped")) :=
  ⟨(backend_error_taxonomy_mapping.2.1 "bot" [] "boom" (some 3)).1,
   backend_error_taxonomy_mapping.2.2.2 c9Eng "bot" "hi" c9Agent [] _ _
     rfl rfl rfl⟩

/-- Characterization of the `shutdown_all` loop: folding the step over a
block of names whose bindings are in the (unchanged) registry, starting
from a report whose failure map misses all those names, appends to the
report exactly the names of cleanly-shutting agents and the (name, error
text) pairs of failing ones, in iteration order. -/
theorem shutdownAll_foldl_char (r : AgentRegistry) :
    ∀ (l : List (String × Agent)) (rep : ShutdownReport),
      (∀ p ∈ l, dictLookup r.agents p.1 = some p.2) →
      (l.map Prod.fst).Nodup →
      (∀ n ∈ l.map Prod.fst, dictLookup rep.failed n = none) →
      (l.map Prod.fst).foldl (shutdownAllStep r) rep =
        { succeeded := rep.succeeded ++
            (l.filter (fun p => p.2.shutdownExc.isNone)).map Prod.fst
          failed := rep.failed ++
            l.filterMap (fun p => p.2.shutdownExc.map (fun m => (p.1, m))) } := by
  intro l
  induction l with
  | nil =>
    intro rep _ _ _
    simp
  | cons p rest ih =>
    intro rep hlook hnd hfail
    obtain ⟨n, a⟩ := p
    have hna : dictLookup r.agents n = some a :=
      hlook (n, a) (List.mem_cons_self _ _)
    simp only [List.map_cons, List.nodup_cons] at hnd
    simp only [List.map_cons, List.foldl_cons]
    cases hexc : a.shutdownExc with
    | none =>
      have hstep : shutdownAllStep r rep n =
          { rep with succeeded := rep.succeeded ++ [n] } := by
        unfold shutdownAllStep
        simp [hna, hexc]
      rw [hstep,
          ih { rep with succeeded := rep.succeeded ++ [n] }
            (fun q hq => hlook q (List.mem_cons_of_mem _ hq)) hnd.2
            (fun n' hn' => hfail n' (List.mem_cons_of_mem _ hn'))]
      simp [List.filter_cons, List.filterMap_cons, hexc, List.append_assoc]
    | some m =>
      have hfn : dictLookup rep.failed n = none :=
        hfail n (List.mem_cons_self _ _)
      have hstep : shutdownAllStep r rep n =
          { rep with failed := rep.failed ++ [(n, m)] } := by
        unfold shutdownAllStep
        simp [hna, hexc, dictInsert_of_lookup_none hfn]
      have hfail' : ∀ n' ∈ rest.map Prod.fst,
          dictLookup (rep.failed ++ [(n, m)]) n' = none := by
        intro n' hn'
        have hne : ¬ n = n' := by
          intro he
          exact hnd.1 (he ▸ hn')
        rw [dictLookup_append, hfail n' (List.mem_cons_of_mem _ hn')]
        simp [dictLookup, hne]
      rw [hstep,
          ih { rep with failed := rep.failed ++ [(n, m)] }
            (fun q hq => hlook q (List.mem_cons_of_mem _ hq)) hnd.2 hfail']
      simp [List.filter_cons, List.filterMap_cons, hexc, List.append_assoc]

/-- The keys of the failure pairs extracted from a block of agents form a
sublist of the block's keys. -/
theorem failedKeys_sublist (l : List (String × Agent)) :
    ((l.filterMap (fun p => p.2.shutdownExc.map (fun m => (p.1, m)))).map
      Prod.fst).Sublist (l.map Prod.fst) := by
  induction l with
  | nil => simp
  | cons p rest ih =>
    cases hexc : p.2.shutdownExc with
    | none =>
      simp only [List.filterMap_cons, hexc, Option.map_none', List.map_cons]
      exact ih.cons _
    | some m =>
      simp only [List.filterMap_cons, hexc, Option.map_some', List.map_cons]
      exact ih.cons₂ _

/-- C7: `shutdown_all` visits every registered agent individually over the
snapshot of names; the report's succeeded list is exactly the names whose
shutdown returned cleanly (in order), its failure map holds exactly the
(name, error text) pairs of the agents whose shutdown raised, every name
lands in one of the two, and the registry is left empty regardless of
failures. -/
theorem shutdown_all_partition (r : AgentRegistry) (hwf : r.WF) :
    (r.shutdown_all).2.agents = [] ∧
    (r.shutdown_all).2.configs = [] ∧
    (r.shutdown_all).1.succeeded =
      (r.agents.filter (fun p => p.2.shutdownExc.isNone)).map Prod.fst ∧
    (r.shutdown_all).1.failed =
      r.agents.filterMap (fun p => p.2.shutdownExc.map (fun m => (p.1, m))) ∧
    (∀ n, n ∈ r.agents.map Prod.fst →
      n ∈ (r.shutdown_all).1.succeeded ∨
        (dictLookup (r.shutdown_all).1.failed n).isSome = true) ∧
    (∀ n a m, (n, a) ∈ r.agents → a.shutdownExc = some m →
      dictLookup (r.shutdown_all).1.failed n = some m) := by
  have h0 : r.shutdown_all =
      ((r.agents.map Prod.fst).foldl (shutdownAllStep r) {},
       { agents := [], configs := [] }) := rfl
  have hchar := shutdownAll_foldl_char r r.agents {}
    (fun p hp => dictLookup_of_mem hwf.1 (by simpa using hp))
    hwf.1 (fun n _ => rfl)
  have hrep : (r.shutdown_all).1 =
      { succeeded := (r.agents.filter (fun p => p.2.shutdownExc.isNone)).map
          Prod.fst
        failed := r.agents.filterMap
          (fun p => p.2.shutdownExc.map (fun m => (p.1, m))) } := by
    rw [h0]
    simpa using hchar
  have hfailed : ∀ n a m, (n, a) ∈ r.agents → a.shutdownExc = some m →
      dictLookup (r.shutdown_all).1.failed n = some m := by
    intro n a m hmem hexc
    rw [hrep]
    have hnd : ((r.agents.filterMap
        (fun p => p.2.shutdownExc.map (fun m => (p.1, m)))).map
          Prod.fst).Nodup :=
      (failedKeys_sublist r.agents).nodup hwf.1
    refine dictLookup_of_mem hnd ?_
    exact List.mem_filterMap.mpr ⟨(n, a), hmem, by simp [hexc]⟩
  refine ⟨by rw [h0], by rw [h0], by rw [hrep], by rw [hrep], ?_, hfailed⟩
  intro n hn
  obtain ⟨p, hp, hfst⟩ := List.mem_map.mp hn
  cases hexc : p.2.shutdownExc with
  | none =>
    left
    rw [hrep]
    exact List.mem_map.mpr ⟨p, List.mem_filter.mpr ⟨hp, by simp [hexc]⟩, hfst⟩
  | some m =>
    right
    rw [← hfst, hfailed p.1 p.2 m (by simpa using hp) hexc]
    rfl

/-- C7 witness: at the concrete registry with "a" succeeding and "b"
failing, the report partitions as succeeded = ["a"],
failed = [("b", "boom")], and both maps are cleared. -/
theorem shutdown_all_partition_witness :
    (regAB.shutdown_all).2.agents = [] ∧
    (regAB.shutdown_all).2.configs = [] ∧
    (regAB.shutdown_all).1.succeeded = ["a"] ∧
    (regAB.shutdown_all).1.failed = [("b", "boom")] := by
  have h := shutdown_all_partition regAB ⟨by decide, by decide⟩
  exact ⟨h.1, h.2.1, by rw [h.2.2.1]; rfl, by rw [h.2.2.2.1]; rfl⟩

end Orchestration
